import Mathlib

/-
Verification of the redfish-client orchestration layer (src/clients/base.ts,
src/clients/smart.ts) against its natural-language specification.

The embedding is a shallow one: every remote interaction performed through
customFetch is replaced by an explicit environment parameter holding the
outcome the remote BMC would produce, and every method of the client becomes
a pure Lean function from that environment and the client's mutable state to
the produced result, the updated state, and the ordered trace of requests the
method issued.  Logging calls (console.*) have no semantic effect and are not
modelled.
-/

namespace Redfish

/-- Errors surfaced by the client.  Each constructor corresponds to one throw
site in the source (base.ts / smart.ts); transport-level constructors model
errors that a customFetch call itself can produce. -/
inductive RfError where
  | transportError (msg : String)
  | httpError (status : Nat)
  | jsonParseError
  | typeError
  | redfishError (msgs : List String)
  | unsupportedVendor
  | noSessionsUri
  | credentialsMissing
  | authError
  | stateError
  | noSystemId
  | noBootSupport
  | validationError (allowed : List String) (target : String)
  | noPowerAction
  | timeoutError
  | noVirtualMediaInfo
  | noVirtualMediaDevice
  | badImageFormat
  | noCompatibleDevice
  | unmountFailed
  | mountFailed
  | setBootFailed
  | rebootFailed
  | powerOnFailed
  | notImplemented (method : String)
  deriving DecidableEq, Repr

/-- One outbound request issued by the client, recorded in execution traces. -/
inductive RfRequest where
  | getRoot
  | login (userName password : String)
  | deleteSession (uri : String)
  | getSystem (sysId : String)
  | getCollection (uri : String)
  | getVm (uri : String)
  | patchBoot (uri enabled target mode : String) (ifMatch : Option String)
  | postReset (uri resetType : String)
  | unmount (mediaId : String)
  | mount (imageUri mediaId : String)
  | setVmBoot (mediaType : String)
  deriving DecidableEq, Repr

/-- Vendor driver selected by the dispatcher (smart.ts). -/
inductive DriverKind where
  | iDRAC
  | iBMC
  deriving DecidableEq, Repr

/-- Result of vendor detection: the chosen driver and whether the
unrecognized-vendor warning was emitted. -/
structure DetectResult where
  driver : DriverKind
  warned : Bool
  deriving DecidableEq, Repr

/-- autoDetect (src/clients/smart.ts, lines 24-40): the service root's Oem
object is modelled by its list of keys, with none for an absent Oem field.
The JS test (Dell in redfishData.Oem) is key membership. -/
def autoDetect (oem : Option (List String)) : Except RfError DetectResult :=
  match oem with
  | none => .error .unsupportedVendor
  | some keys =>
    if "Dell" ∈ keys then .ok ⟨.iDRAC, false⟩
    else if "Huawei" ∈ keys then .ok ⟨.iBMC, false⟩
    else .ok ⟨.iDRAC, true⟩

/-- One entry of the error object's ExtendedInfo array in a Redfish body. -/
structure ExtendedInfo where
  messageId : String
  message : String
  deriving DecidableEq, Repr

/-- A parsed 200-response JSON body, as far as the Redfish-error check in
customFetch reads it: errorInfo is the error object's ExtendedInfo array
when the body has a truthy error field carrying one, and none otherwise. -/
structure ResponseBody where
  errorInfo : Option (List ExtendedInfo)
  deriving DecidableEq, Repr

/-- customFetch, Redfish-error check on a parsed 200 body (src/clients/base.ts,
lines 105-119).  Returns .ok none for the benign-marker empty-body success,
.ok (some b) when the body passes through unchanged.  An empty ExtendedInfo
array is truthy in JS but reading MessageId of its first element crashes with
a TypeError, which the model records as an error. -/
def customFetchCheckBody (b : ResponseBody) : Except RfError (Option ResponseBody) :=
  match b.errorInfo with
  | none => .ok (some b)
  | some infos =>
    match infos with
    | [] => .error .typeError
    | first :: _ =>
      if first.messageId = "Base.1.0.Success" then .ok none
      else .error (.redfishError (infos.map (fun i => i.message)))

/-- C8 as literally stated: a 200 body with extended-info entries is a failure
unless the sole message id is the benign marker, in which case success. -/
def c8ClaimStated : Prop :=
  ∀ (b : ResponseBody) (infos : List ExtendedInfo),
    b.errorInfo = some infos → infos ≠ [] →
    ((customFetchCheckBody b).isOk ↔ infos.map (fun i => i.messageId) = ["Base.1.0.Success"])

/-- Session-related mutable state of one RedfishClient instance
(src/clients/base.ts, lines 38-40).  An empty sessionUri models the
yet-undiscovered endpoint (the TS fields start as empty strings / null). -/
structure SessionState where
  sessionUri : String
  sessionToken : Option String
  sessionId : Option String
  deriving DecidableEq, Repr

/-- Models the JS idiom (x || null) applied to an optional string: an empty
string is falsy and collapses to null. -/
def strToOpt (s : Option String) : Option String :=
  match s with
  | none => none
  | some v => if v = "" then none else some v

/-- Remote outcomes consumed by session acquisition: the service root's
Links.Sessions reference (none when absent), and the login POST's
x-auth-token header and body Id (none when the header / field is absent). -/
structure LoginEnv where
  rootSessionsUri : Except RfError (Option String)
  loginResult : Except RfError (Option String × Option String)

/-- getRedfishSessionUri (src/clients/base.ts, lines 128-141): fetches the
service root, stores and returns Links.Sessions when present, fails
otherwise. -/
def getRedfishSessionUri (env : LoginEnv) (st : SessionState) :
    Except RfError String × SessionState × List RfRequest :=
  match env.rootSessionsUri with
  | .error e => (.error e, st, [.getRoot])
  | .ok none => (.error .noSessionsUri, st, [.getRoot])
  | .ok (some uri) => (.ok uri, { st with sessionUri := uri }, [.getRoot])

/-- getSessionToken (src/clients/base.ts, lines 146-178): returns the cached
token if set; otherwise resolves the session uri (cached or via the root),
checks credentials, POSTs them, stores header token and body id, and fails
after the store when either is missing. -/
def getSessionToken (env : LoginEnv) (userName password : String) (st : SessionState) :
    Except RfError String × SessionState × List RfRequest :=
  match st.sessionToken with
  | some tok => (.ok tok, st, [])
  | none =>
    match (if st.sessionUri = "" then getRedfishSessionUri env st
           else (.ok st.sessionUri, st, [])) with
    | (.error e, st1, tr) => (.error e, st1, tr)
    | (.ok _, st1, tr) =>
      if userName = "" ∨ password = "" then (.error .credentialsMissing, st1, tr)
      else
        match env.loginResult with
        | .error e => (.error e, st1, tr ++ [.login userName password])
        | .ok (hdrTok, bodyId) =>
          let st2 := { st1 with sessionToken := strToOpt hdrTok, sessionId := strToOpt bodyId }
          match st2.sessionToken, st2.sessionId with
          | some t, some _ => (.ok t, st2, tr ++ [.login userName password])
          | _, _ => (.error .authError, st2, tr ++ [.login userName password])

/-- Remote outcome of the session DELETE. -/
structure DeleteEnv where
  deleteResult : Except RfError Unit

/-- closeSession (src/clients/base.ts, lines 183-195): fails when token or id
is unset; otherwise DELETEs the session resource by id; the cached pair is
cleared only on the success path, since the catch block rethrows before the
assignments run. -/
def closeSession (env : DeleteEnv) (st : SessionState) :
    Except RfError Unit × SessionState × List RfRequest :=
  match st.sessionToken, st.sessionId with
  | some _, some sid =>
    match env.deleteResult with
    | .ok _ => (.ok (), { st with sessionToken := none, sessionId := none },
                [.deleteSession (st.sessionUri ++ "/" ++ sid)])
    | .error e => (.error e, st, [.deleteSession (st.sessionUri ++ "/" ++ sid)])
  | _, _ => (.error .stateError, st, [])

/-- C7 as literally stated, in its clear-afterward part: with an active
session, the cached token and session id are cleared regardless of the
remote outcome of the DELETE. -/
def c7ClaimStated : Prop :=
  ∀ (env : DeleteEnv) (st : SessionState) (tok sid : String),
    st.sessionToken = some tok → st.sessionId = some sid →
    (closeSession env st).2.1.sessionToken = none
    ∧ (closeSession env st).2.1.sessionId = none

/-- Concrete environment for the C7 counterexample: the remote DELETE fails. -/
def c7Env : DeleteEnv := ⟨.error (.httpError 500)⟩

/-- Concrete state for the C7 counterexample: an active session. -/
def c7St : SessionState := ⟨"/redfish/v1/SessionService/Sessions", some "tok", some "1"⟩

/-- Boot configuration of a system record (the Boot object of a Redfish
ComputerSystem): the override-enabled marker and the advertised allow-list
when present. -/
structure BootConfig where
  bootSourceOverrideEnabled : Option String
  allowableValues : Option (List String)
  deriving DecidableEq, Repr

/-- The fields of a SystemInfo document that the verified operations read. -/
structure SystemInfo where
  odataId : String
  etag : String
  powerState : Option String
  boot : Option BootConfig
  resetTarget : Option String
  virtualMediaUri : Option String
  deriving DecidableEq, Repr

/-- The systemInfos cache of a client instance, keyed by system id; an
insertion shadows any earlier entry, as JS object assignment does. -/
abbrev SystemCache := List (String × SystemInfo)

/-- Reads the cache entry for one system id. -/
def cacheLookup (st : SystemCache) (sysId : String) : Option SystemInfo :=
  match st with
  | [] => none
  | (k, v) :: rest => if k = sysId then some v else cacheLookup rest sysId

/-- Stores a cache entry for one system id. -/
def cacheInsert (st : SystemCache) (sysId : String) (v : SystemInfo) : SystemCache :=
  (sysId, v) :: st

/-- Remote outcome of a GET of one system resource: the parsed document and
the etag response header (none when the header is absent). -/
structure FetchSystemEnv where
  fetchSystem : String → Except RfError (SystemInfo × Option String)

/-- getSystemInfo (src/clients/base.ts, lines 250-269): rejects an empty id;
without refresh returns a populated cache entry untouched; otherwise fetches
the document, stamps the etag header into it, stores it and returns it. -/
def getSystemInfo (env : FetchSystemEnv) (st : SystemCache) (sysId : String)
    (refresh : Bool) : Except RfError SystemInfo × SystemCache × List RfRequest :=
  if sysId = "" then (.error .noSystemId, st, [])
  else
    match refresh, cacheLookup st sysId with
    | false, some cached => (.ok cached, st, [])
    | _, _ =>
      match env.fetchSystem sysId with
      | .error e => (.error e, st, [.getSystem sysId])
      | .ok (data, etagHdr) =>
        (.ok { data with etag := etagHdr.getD "" },
         cacheInsert st sysId { data with etag := etagHdr.getD "" }, [.getSystem sysId])

/-- Models the recurring source idiom
(this.systemInfos[sysId] or await this.getSystemInfo(sysId)): a cached entry
is used directly, otherwise the non-refresh fetch path runs. -/
def resolveSystemInfo (env : FetchSystemEnv) (st : SystemCache) (sysId : String) :
    Except RfError SystemInfo × SystemCache × List RfRequest :=
  match cacheLookup st sysId with
  | some cached => (.ok cached, st, [])
  | none => getSystemInfo env st sysId false

/-- A polled task resource, as far as waitForTaskCompletion reads it. -/
structure Task where
  taskState : String
  taskStatus : String
  deriving DecidableEq, Repr

/-- waitForTaskCompletion's polling loop (src/clients/base.ts, lines 698-721),
indexed by the poll number n.  The environment gives the outcome of the n-th
GET of the task resource.  Wall-clock time is modelled by the sleeps alone
(each poll is instantaneous and is followed by a 3000 ms sleep), so the
elapsed time checked after the n-th fetch is 3000 * n; the check runs before
the terminal-state test, exactly as in the source. -/
def waitForTaskCompletionLoop (env : Nat → Except RfError Task) (n : Nat) :
    Except RfError Bool :=
  match env n with
  | .error e => .error e
  | .ok t =>
    if h : 600000 ≤ 3000 * n then .error .timeoutError
    else if t.taskState = "Completed" then .ok (t.taskStatus == "OK")
    else waitForTaskCompletionLoop env (n + 1)
termination_by 200 - n
decreasing_by omega

/-- waitForTaskCompletion starts polling at poll number 0, when no time has
elapsed. -/
def waitForTaskCompletion (env : Nat → Except RfError Task) : Except RfError Bool :=
  waitForTaskCompletionLoop env 0

/-- Task environment whose task is immediately completed successfully. -/
def taskEnvCompleted : Nat → Except RfError Task := fun _ => .ok ⟨"Completed", "OK"⟩

/-- Task environment whose task never reaches the terminal state. -/
def taskEnvRunning : Nat → Except RfError Task := fun _ => .ok ⟨"Running", "OK"⟩

/-- Phase of one caller inside getSessionToken: before the cached-token check,
suspended between that check and the token store, or returned. -/
inductive CallerPhase where
  | start
  | loggingIn
  | finished
  deriving DecidableEq, Repr

/-- Shared state of two concurrent getSessionToken calls on one client
instance: the cached token field, each caller's phase, and how many login
POSTs have been issued. -/
structure RaceState where
  token : Option String
  phase1 : CallerPhase
  phase2 : CallerPhase
  loginCount : Nat
  deriving DecidableEq, Repr

/-- One atomic step of a caller inside getSessionToken
(src/clients/base.ts, lines 146-178).  From start, the caller runs the
cached-token check of line 147: with a token cached it returns, otherwise it
proceeds towards the login POST, suspending at the awaited requests of lines
151-166.  From loggingIn, the POST completes and the caller stores the token
(line 167).  The two phases are separated by awaits in the source, so steps
of the other caller can be interleaved between them. -/
def stepCaller (phase : CallerPhase) (token : Option String) (logins : Nat) :
    CallerPhase × Option String × Nat :=
  match phase with
  | .start =>
    match token with
    | some _ => (.finished, token, logins)
    | none => (.loggingIn, token, logins)
  | .loggingIn => (.finished, some "token", logins + 1)
  | .finished => (.finished, token, logins)

/-- Runs an interleaving of the two callers: true schedules a step of caller
one, false a step of caller two. -/
def runSchedule (sched : List Bool) (st : RaceState) : RaceState :=
  match sched with
  | [] => st
  | c :: rest =>
    if c then
      let s := stepCaller st.phase1 st.token st.loginCount
      runSchedule rest { st with phase1 := s.1, token := s.2.1, loginCount := s.2.2 }
    else
      let s := stepCaller st.phase2 st.token st.loginCount
      runSchedule rest { st with phase2 := s.1, token := s.2.1, loginCount := s.2.2 }

/-- Both callers start before any authenticated call: no token cached. -/
def freshRaceState : RaceState := ⟨none, .start, .start, 0⟩

/-- The racy interleaving: both callers run the cached-token check before
either performs the login POST. -/
def racySchedule : List Bool := [true, false, true, false]

/-- JS truthiness of an optional string field: absent or empty is falsy. -/
def strTruthy (s : Option String) : Bool :=
  match s with
  | none => false
  | some v => v != ""

/-- Remote outcome of the boot-configuration PATCH. -/
structure PatchEnv where
  patchResult : Except RfError Unit

/-- The PATCH request setNextBootDevice issues (src/clients/base.ts, lines
752-765): body Boot.BootSourceOverrideEnabled from the once flag,
Boot.BootSourceOverrideTarget the requested device, mode UEFI, and an
If-Match header carrying the cached etag when one was captured. -/
def bootPatchRequest (systemInfo : SystemInfo) (bootDeviceName : String) (once : Bool) :
    RfRequest :=
  .patchBoot systemInfo.odataId (if once then "Once" else "Continuous") bootDeviceName "UEFI"
    (if systemInfo.etag = "" then none else some systemInfo.etag)

/-- Issues the boot PATCH and converts its outcome (the try block of
setNextBootDevice). -/
def issueBootPatch (penv : PatchEnv) (st : SystemCache) (tr : List RfRequest)
    (systemInfo : SystemInfo) (bootDeviceName : String) (once : Bool) :
    Except RfError Bool × SystemCache × List RfRequest :=
  match penv.patchResult with
  | .ok _ => (.ok true, st, tr ++ [bootPatchRequest systemInfo bootDeviceName once])
  | .error e => (.error e, st, tr ++ [bootPatchRequest systemInfo bootDeviceName once])

/-- setNextBootDevice (src/clients/base.ts, lines 731-771): resolves the
system record, requires a Boot object with a truthy override-enabled marker,
rejects a target absent from an advertised allow-list without issuing any
request, and otherwise issues exactly one PATCH.  The iDRAC-name check of
line 736 only logs a warning and has no semantic effect. -/
def setNextBootDevice (fenv : FetchSystemEnv) (penv : PatchEnv) (st : SystemCache)
    (sysId : String) (bootDeviceName : String) (once : Bool) :
    Except RfError Bool × SystemCache × List RfRequest :=
  match resolveSystemInfo fenv st sysId with
  | (.error e, st1, tr) => (.error e, st1, tr)
  | (.ok systemInfo, st1, tr) =>
    match systemInfo.boot with
    | none => (.error .noBootSupport, st1, tr)
    | some boot =>
      if strTruthy boot.bootSourceOverrideEnabled then
        match boot.allowableValues with
        | some allowed =>
          if bootDeviceName ∈ allowed then
            issueBootPatch penv st1 tr systemInfo bootDeviceName once
          else (.error (.validationError allowed bootDeviceName), st1, tr)
        | none => issueBootPatch penv st1 tr systemInfo bootDeviceName once
      else (.error .noBootSupport, st1, tr)

/-- Remote outcome of the reset-action POST. -/
structure PowerEnv where
  resetResult : Except RfError Unit

/-- setSystemPowerState (src/clients/base.ts, lines 634-657): resolves the
system record, requires the ComputerSystem.Reset action, POSTs the reset
type to its target, and returns true on acceptance; every failure is thrown,
never returned as false. -/
def setSystemPowerState (fenv : FetchSystemEnv) (penv : PowerEnv) (st : SystemCache)
    (sysId : String) (action : String) :
    Except RfError Bool × SystemCache × List RfRequest :=
  match resolveSystemInfo fenv st sysId with
  | (.error e, st1, tr) => (.error e, st1, tr)
  | (.ok systemInfo, st1, tr) =>
    match systemInfo.resetTarget with
    | none => (.error .noPowerAction, st1, tr)
    | some target =>
      match penv.resetResult with
      | .ok _ => (.ok true, st1, tr ++ [.postReset target action])
      | .error e => (.error e, st1, tr ++ [.postReset target action])

/-- powerOnSystem (src/clients/base.ts, lines 663-665). -/
def powerOnSystem (fenv : FetchSystemEnv) (penv : PowerEnv) (st : SystemCache)
    (sysId : String) : Except RfError Bool × SystemCache × List RfRequest :=
  setSystemPowerState fenv penv st sysId "On"

/-- shutdownSystem (src/clients/base.ts, lines 671-673). -/
def shutdownSystem (fenv : FetchSystemEnv) (penv : PowerEnv) (st : SystemCache)
    (sysId : String) : Except RfError Bool × SystemCache × List RfRequest :=
  setSystemPowerState fenv penv st sysId "GracefulShutdown"

/-- forceOffSystem (src/clients/base.ts, lines 679-681). -/
def forceOffSystem (fenv : FetchSystemEnv) (penv : PowerEnv) (st : SystemCache)
    (sysId : String) : Except RfError Bool × SystemCache × List RfRequest :=
  setSystemPowerState fenv penv st sysId "ForceOff"

/-- forceRestartSystem (src/clients/base.ts, lines 687-689). -/
def forceRestartSystem (fenv : FetchSystemEnv) (penv : PowerEnv) (st : SystemCache)
    (sysId : String) : Except RfError Bool × SystemCache × List RfRequest :=
  setSystemPowerState fenv penv st sysId "ForceRestart"

/-- A virtual-media member document, as far as bootVirtualMedia reads it.
getVirtualMedia (lines 776-782) rejects a document without MediaTypes; that
rejection is modelled as an environment error. -/
structure VirtualMedia where
  odataId : String
  mediaTypes : List String
  inserted : Bool
  deriving DecidableEq, Repr

/-- Suffix test on the character data of a string, modelling the JS
String.endsWith used on the image uri. -/
def strEndsWith (s suffix : String) : Bool :=
  suffix.data.isSuffixOf s.data

/-- Image-extension classification of bootVirtualMedia (lines 842-846):
an iso image targets a CD device, an img image a USBStick device, anything
else is an unsupported format. -/
def virtualMediaTypeOf (imageUri : String) : Option String :=
  if strEndsWith imageUri ".iso" then some "CD"
  else if strEndsWith imageUri ".img" then some "USBStick"
  else none

/-- Concurrent fan-out over the media members (the Promise.all of line 850):
position-stable, and any member failure aborts the whole aggregation. -/
def fetchAllVm (getVm : String → Except RfError VirtualMedia) :
    List String → Except RfError (List VirtualMedia)
  | [] => .ok []
  | u :: rest =>
    match getVm u with
    | .error e => .error e
    | .ok v =>
      match fetchAllVm getVm rest with
      | .error e => .error e
      | .ok vs => .ok (v :: vs)

/-- Remote outcomes consumed by the bootVirtualMedia workflow: the system
fetches, the manager's virtual-media reference (for the fallback of lines
827-833), the media collection member references, each member document, the
vendor unmount / mount / set-boot-device outcomes, and the reset POST. -/
structure BootMediaEnv where
  fenv : FetchSystemEnv
  penv : PowerEnv
  managerVmUri : Except RfError (Option String)
  vmMembers : Except RfError (List String)
  getVm : String → Except RfError VirtualMedia
  unmountResult : Except RfError Bool
  mountResult : Except RfError Bool
  setVmBootResult : Except RfError Bool

/-- Steps 6-7 of the workflow (lines 869-890): configure the virtual media as
the one-time boot device, then re-read the power state bypassing the cache
and branch: force-restart when On, power-on when Off, nothing otherwise. -/
def bootVirtualMediaAfterMount (env : BootMediaEnv) (st : SystemCache) (sysId : String)
    (virtualMediaType : String) (matchingMedia : VirtualMedia) (tr : List RfRequest) :
    Except RfError (Bool × VirtualMedia) × SystemCache × List RfRequest :=
  match env.setVmBootResult with
  | .error e => (.error e, st, tr ++ [.setVmBoot virtualMediaType])
  | .ok false => (.error .setBootFailed, st, tr ++ [.setVmBoot virtualMediaType])
  | .ok true =>
    match getSystemInfo env.fenv st sysId true with
    | (.error e, st2, rtr) => (.error e, st2, tr ++ [.setVmBoot virtualMediaType] ++ rtr)
    | (.ok latest, st2, rtr) =>
      if latest.powerState = some "On" then
        match forceRestartSystem env.fenv env.penv st2 sysId with
        | (.error e, st3, ptr) =>
          (.error e, st3, tr ++ [.setVmBoot virtualMediaType] ++ rtr ++ ptr)
        | (.ok false, st3, ptr) =>
          (.error .rebootFailed, st3, tr ++ [.setVmBoot virtualMediaType] ++ rtr ++ ptr)
        | (.ok true, st3, ptr) =>
          (.ok (true, matchingMedia), st3, tr ++ [.setVmBoot virtualMediaType] ++ rtr ++ ptr)
      else if latest.powerState = some "Off" then
        match powerOnSystem env.fenv env.penv st2 sysId with
        | (.error e, st3, ptr) =>
          (.error e, st3, tr ++ [.setVmBoot virtualMediaType] ++ rtr ++ ptr)
        | (.ok false, st3, ptr) =>
          (.error .powerOnFailed, st3, tr ++ [.setVmBoot virtualMediaType] ++ rtr ++ ptr)
        | (.ok true, st3, ptr) =>
          (.ok (true, matchingMedia), st3, tr ++ [.setVmBoot virtualMediaType] ++ rtr ++ ptr)
      else (.ok (true, matchingMedia), st2, tr ++ [.setVmBoot virtualMediaType] ++ rtr)

/-- Step 5 of the workflow (lines 863-867): vendor mount of the image on the
selected device; a thrown error or a false result aborts. -/
def bootVirtualMediaMountStep (env : BootMediaEnv) (st : SystemCache) (sysId : String)
    (imageUri virtualMediaType : String) (matchingMedia : VirtualMedia)
    (tr : List RfRequest) :
    Except RfError (Bool × VirtualMedia) × SystemCache × List RfRequest :=
  match env.mountResult with
  | .error e => (.error e, st, tr ++ [.mount imageUri matchingMedia.odataId])
  | .ok false => (.error .mountFailed, st, tr ++ [.mount imageUri matchingMedia.odataId])
  | .ok true =>
    bootVirtualMediaAfterMount env st sysId virtualMediaType matchingMedia
      (tr ++ [.mount imageUri matchingMedia.odataId])

/-- Step 4 then 5 of the workflow (lines 856-867): when the selected device
reports media inserted, the vendor unmount runs first and a thrown error or
a false result aborts before any mount; otherwise the mount follows
directly. -/
def bootVirtualMediaMountPhase (env : BootMediaEnv) (st : SystemCache) (sysId : String)
    (imageUri virtualMediaType : String) (matchingMedia : VirtualMedia)
    (tr : List RfRequest) :
    Except RfError (Bool × VirtualMedia) × SystemCache × List RfRequest :=
  if matchingMedia.inserted then
    match env.unmountResult with
    | .error e => (.error e, st, tr ++ [.unmount matchingMedia.odataId])
    | .ok false => (.error .unmountFailed, st, tr ++ [.unmount matchingMedia.odataId])
    | .ok true =>
      bootVirtualMediaMountStep env st sysId imageUri virtualMediaType matchingMedia
        (tr ++ [.unmount matchingMedia.odataId])
  else
    bootVirtualMediaMountStep env st sysId imageUri virtualMediaType matchingMedia tr

/-- bootVirtualMedia (src/clients/base.ts, lines 813-891): resolves the
system record, locates the media collection (system-level reference first,
manager-level fallback), lists its members, classifies the image, fetches
all member documents concurrently, selects the first device supporting the
target type (an empty supported-types list accepts anything), and hands over
to the mount phase. -/
def bootVirtualMedia (env : BootMediaEnv) (st : SystemCache) (sysId : String)
    (imageUri : String) :
    Except RfError (Bool × VirtualMedia) × SystemCache × List RfRequest :=
  match resolveSystemInfo env.fenv st sysId with
  | (.error e, st1, tr) => (.error e, st1, tr)
  | (.ok systemInfo, st1, tr) =>
    match (match systemInfo.virtualMediaUri with
           | some u => (Except.ok u : Except RfError String)
           | none =>
             match env.managerVmUri with
             | .error e => .error e
             | .ok none => .error .noVirtualMediaInfo
             | .ok (some u) => .ok u) with
    | .error e => (.error e, st1, tr)
    | .ok vmUri =>
      match env.vmMembers with
      | .error e => (.error e, st1, tr ++ [.getCollection vmUri])
      | .ok members =>
        if members.isEmpty then
          (.error .noVirtualMediaDevice, st1, tr ++ [.getCollection vmUri])
        else
          match virtualMediaTypeOf imageUri with
          | none => (.error .badImageFormat, st1, tr ++ [.getCollection vmUri])
          | some virtualMediaType =>
            match fetchAllVm env.getVm members with
            | .error e =>
              (.error e, st1, tr ++ [.getCollection vmUri] ++ members.map RfRequest.getVm)
            | .ok vmList =>
              match vmList.find? (fun media =>
                  media.mediaTypes.contains virtualMediaType || media.mediaTypes.isEmpty) with
              | none =>
                (.error .noCompatibleDevice, st1,
                 tr ++ [.getCollection vmUri] ++ members.map RfRequest.getVm)
              | some matchingMedia =>
                bootVirtualMediaMountPhase env st1 sysId imageUri virtualMediaType
                  matchingMedia (tr ++ [.getCollection vmUri] ++ members.map RfRequest.getVm)

/-- Holds when some environment channel of the workflow itself yields the
error e; the workflow can surface e for no other reason than producing it at
one of its own throw sites. -/
def envInjected (env : BootMediaEnv) (e : RfError) : Prop :=
  (∃ id, env.fenv.fetchSystem id = .error e)
  ∨ env.managerVmUri = .error e
  ∨ env.vmMembers = .error e
  ∨ (∃ u, env.getVm u = .error e)
  ∨ env.unmountResult = .error e
  ∨ env.mountResult = .error e
  ∨ env.setVmBootResult = .error e
  ∨ env.penv.resetResult = .error e

/-- The workflow's own error markers apart from the two power-branch ones. -/
def workflowMarkers : List RfError :=
  [.noSystemId, .noPowerAction, .noVirtualMediaInfo, .noVirtualMediaDevice,
   .badImageFormat, .noCompatibleDevice, .unmountFailed, .mountFailed, .setBootFailed]

/-- Concrete system record for the boot-workflow witnesses. -/
def bootWitnessSys : SystemInfo :=
  ⟨"/redfish/v1/Systems/1", "", some "On", none,
   some "/redfish/v1/Systems/1/Actions/ComputerSystem.Reset",
   some "/redfish/v1/Managers/1/VirtualMedia"⟩

/-- Concrete selected device for the boot-workflow witnesses: media already
inserted. -/
def bootWitnessMedia : VirtualMedia := ⟨"/vm/cd", ["CD"], true⟩

/-- Concrete happy-path environment for the boot-workflow witnesses. -/
def bootWitnessEnv : BootMediaEnv :=
  { fenv := ⟨fun _ => .ok (bootWitnessSys, none)⟩
    penv := ⟨.ok ()⟩
    managerVmUri := .ok none
    vmMembers := .ok ["/vm/cd"]
    getVm := fun _ => .ok bootWitnessMedia
    unmountResult := .ok true
    mountResult := .ok true
    setVmBootResult := .ok true }

/-- The witness environment with a failing vendor unmount. -/
def bootWitnessEnvUnmountErr : BootMediaEnv :=
  { bootWitnessEnv with unmountResult := .error (.httpError 500) }

/-- Concrete cache for the boot-workflow witnesses. -/
def bootWitnessCache : SystemCache := [("1", bootWitnessSys)]

/-- Concrete system record for the boot-device witness: boot override
enabled, allow-list advertising Cd and Pxe, a captured etag. -/
def c3Sys : SystemInfo :=
  ⟨"/redfish/v1/Systems/1", "E1", some "On", some ⟨some "Once", some ["Cd", "Pxe"]⟩,
   none, none⟩

/-- Concrete cache for the boot-device witness. -/
def c3Cache : SystemCache := [("1", c3Sys)]

end Redfish

namespace Redfish

/-- C4: a service root whose OEM object contains key Dell yields the
Dell-style (iDRAC) driver; otherwise key Huawei yields the Huawei-style
(iBMC) driver; an OEM object containing neither yields the default (iDRAC)
driver with a recorded warning and no failure; only an absent OEM object
fails, with the unsupported-vendor error. -/
theorem autoDetect_vendor_dispatch (keys : List String) :
    ("Dell" ∈ keys → autoDetect (some keys) = .ok ⟨.iDRAC, false⟩)
    ∧ ("Dell" ∉ keys → "Huawei" ∈ keys → autoDetect (some keys) = .ok ⟨.iBMC, false⟩)
    ∧ ("Dell" ∉ keys → "Huawei" ∉ keys → autoDetect (some keys) = .ok ⟨.iDRAC, true⟩)
    ∧ autoDetect none = .error .unsupportedVendor := by
  refine ⟨fun h => ?_, fun h1 h2 => ?_, fun h1 h2 => ?_, rfl⟩
  · simp [autoDetect, h]
  · simp [autoDetect, h1, h2]
  · simp [autoDetect, h1, h2]

/-- C4 witness: the dispatch theorem applied at concrete OEM key sets. -/
theorem autoDetect_vendor_dispatch_witness :
    autoDetect (some ["Dell"]) = .ok ⟨.iDRAC, false⟩
    ∧ autoDetect (some ["Huawei"]) = .ok ⟨.iBMC, false⟩
    ∧ autoDetect (some ["Lenovo"]) = .ok ⟨.iDRAC, true⟩
    ∧ autoDetect none = .error .unsupportedVendor :=
  ⟨(autoDetect_vendor_dispatch ["Dell"]).1 (by decide),
   (autoDetect_vendor_dispatch ["Huawei"]).2.1 (by decide) (by decide),
   (autoDetect_vendor_dispatch ["Lenovo"]).2.2.1 (by decide) (by decide),
   (autoDetect_vendor_dispatch []).2.2.2⟩

/-- C8 counterexample: with two extended-info entries whose first message id
is the benign marker, the code treats the response as success although the
sole-message-id condition of the claim does not hold, so the claim as stated
is false. -/
theorem customFetch_success_marker_counterexample : ¬ c8ClaimStated := by
  intro h
  have hx := h ⟨some [⟨"Base.1.0.Success", "ok"⟩, ⟨"Base.1.0.GeneralError", "boom"⟩]⟩
      [⟨"Base.1.0.Success", "ok"⟩, ⟨"Base.1.0.GeneralError", "boom"⟩] rfl (by decide)
  revert hx
  decide

/-- C8 amended: a 200 body with extended-info entries is a Redfish-level
failure carrying the joined messages unless the FIRST entry's message id is
the benign vendor-specific success marker, in which case the call succeeds
with an empty body. -/
theorem customFetch_success_marker_first_entry (b : ResponseBody)
    (first : ExtendedInfo) (rest : List ExtendedInfo)
    (h : b.errorInfo = some (first :: rest)) :
    (first.messageId = "Base.1.0.Success" → customFetchCheckBody b = .ok none)
    ∧ (first.messageId ≠ "Base.1.0.Success" →
        customFetchCheckBody b =
          .error (.redfishError ((first :: rest).map (fun i => i.message)))) := by
  constructor
  · intro hm
    simp [customFetchCheckBody, h, hm]
  · intro hm
    simp [customFetchCheckBody, h, hm]

/-- C8 amended witness: the amended theorem applied to concrete bodies. -/
theorem customFetch_success_marker_first_entry_witness :
    customFetchCheckBody ⟨some [⟨"Base.1.0.Success", "ok"⟩]⟩ = .ok none
    ∧ customFetchCheckBody ⟨some [⟨"Base.1.0.GeneralError", "boom"⟩]⟩ =
        .error (.redfishError ["boom"]) :=
  ⟨(customFetch_success_marker_first_entry ⟨some [⟨"Base.1.0.Success", "ok"⟩]⟩
      ⟨"Base.1.0.Success", "ok"⟩ [] rfl).1 rfl,
   (customFetch_success_marker_first_entry ⟨some [⟨"Base.1.0.GeneralError", "boom"⟩]⟩
      ⟨"Base.1.0.GeneralError", "boom"⟩ [] rfl).2 (by decide)⟩

theorem cacheLookup_insert (st : SystemCache) (sysId : String) (v : SystemInfo) :
    cacheLookup (cacheInsert st sysId v) sysId = some v := by
  simp [cacheInsert, cacheLookup]

/-- C5: for a fixed system id, the first fetch populates the cache entry; a
second call without refresh returns the identical cached value with no
request and unchanged state; a call with refresh fetches anew and
repopulates the entry; and in general a populated entry is only ever
re-fetched under an explicit refresh. -/
theorem getSystemInfo_cache (env : FetchSystemEnv) (st : SystemCache) (sysId : String)
    (data : SystemInfo) (hdr : Option String)
    (hid : sysId ≠ "") (hmiss : cacheLookup st sysId = none)
    (hfetch : env.fetchSystem sysId = .ok (data, hdr)) :
    getSystemInfo env st sysId false =
      (.ok { data with etag := hdr.getD "" },
       cacheInsert st sysId { data with etag := hdr.getD "" }, [.getSystem sysId])
    ∧ getSystemInfo env (cacheInsert st sysId { data with etag := hdr.getD "" }) sysId false =
        (.ok { data with etag := hdr.getD "" },
         cacheInsert st sysId { data with etag := hdr.getD "" }, [])
    ∧ getSystemInfo env (cacheInsert st sysId { data with etag := hdr.getD "" }) sysId true =
        (.ok { data with etag := hdr.getD "" },
         cacheInsert (cacheInsert st sysId { data with etag := hdr.getD "" }) sysId
           { data with etag := hdr.getD "" }, [.getSystem sysId])
    ∧ (∀ (st2 : SystemCache) (cached : SystemInfo), cacheLookup st2 sysId = some cached →
        getSystemInfo env st2 sysId false = (.ok cached, st2, [])) := by
  refine ⟨?_, ?_, ?_, fun st2 cached hc => ?_⟩
  · simp [getSystemInfo, hid, hmiss, hfetch]
  · simp [getSystemInfo, hid, cacheLookup_insert]
  · simp [getSystemInfo, hid, hfetch]
  · simp [getSystemInfo, hid, hc]

/-- C5 witness: the cache theorem applied to a concrete environment, empty
cache and system id. -/
theorem getSystemInfo_cache_witness :
    getSystemInfo ⟨fun _ => .ok (⟨"/redfish/v1/Systems/1", "", some "On", none, none, none⟩,
        some "W1")⟩ [] "1" false =
      (.ok ⟨"/redfish/v1/Systems/1", "W1", some "On", none, none, none⟩,
       [("1", ⟨"/redfish/v1/Systems/1", "W1", some "On", none, none, none⟩)],
       [.getSystem "1"]) :=
  (getSystemInfo_cache ⟨fun _ => .ok (⟨"/redfish/v1/Systems/1", "", some "On", none, none, none⟩,
      some "W1")⟩ [] "1" ⟨"/redfish/v1/Systems/1", "", some "On", none, none, none⟩
    (some "W1") (by decide) rfl rfl).1

/-- C7 counterexample: with an active session and a failing remote DELETE,
closeSession leaves the cached token set, so the cached pair is not cleared
regardless of the remote outcome as the claim states. -/
theorem closeSession_claim_counterexample : ¬ c7ClaimStated := fun h =>
  absurd ((h c7Env c7St "tok" "1" rfl rfl).1) (by decide)

/-- C7 amended: closeSession fails with the state error when no session is
active; otherwise it issues the DELETE of the session resource by id, and it
clears the cached token and session id only when the DELETE succeeds — on a
remote failure the error propagates and the cached pair remains set. -/
theorem closeSession_clears_only_on_success (env : DeleteEnv) (st : SessionState) :
    ((st.sessionToken = none ∨ st.sessionId = none) →
      closeSession env st = (.error .stateError, st, []))
    ∧ (∀ tok sid, st.sessionToken = some tok → st.sessionId = some sid →
        (env.deleteResult = .ok () →
          closeSession env st =
            (.ok (), { st with sessionToken := none, sessionId := none },
             [.deleteSession (st.sessionUri ++ "/" ++ sid)]))
        ∧ (∀ e, env.deleteResult = .error e →
            closeSession env st =
              (.error e, st, [.deleteSession (st.sessionUri ++ "/" ++ sid)]))) := by
  refine ⟨fun h => ?_, fun tok sid htok hsid => ⟨fun hok => ?_, fun e herr => ?_⟩⟩
  · rcases h with h | h
    · cases hsid : st.sessionId <;> simp [closeSession, h, hsid]
    · cases htok : st.sessionToken <;> simp [closeSession, h, htok]
  · simp [closeSession, htok, hsid, hok]
  · simp [closeSession, htok, hsid, herr]

/-- C7 amended witness: the amended theorem applied to a session-less state,
to a successful DELETE and to a failing DELETE. -/
theorem closeSession_clears_only_on_success_witness :
    closeSession c7Env ⟨"", none, none⟩ = (.error .stateError, ⟨"", none, none⟩, [])
    ∧ closeSession ⟨.ok ()⟩ c7St =
        (.ok (), { c7St with sessionToken := none, sessionId := none },
         [.deleteSession ("/redfish/v1/SessionService/Sessions" ++ "/" ++ "1")])
    ∧ closeSession c7Env c7St =
        (.error (.httpError 500), c7St,
         [.deleteSession ("/redfish/v1/SessionService/Sessions" ++ "/" ++ "1")]) :=
  ⟨(closeSession_clears_only_on_success c7Env ⟨"", none, none⟩).1 (Or.inl rfl),
   ((closeSession_clears_only_on_success ⟨.ok ()⟩ c7St).2 "tok" "1" rfl rfl).1 rfl,
   ((closeSession_clears_only_on_success c7Env c7St).2 "tok" "1" rfl rfl).2
     (.httpError 500) rfl⟩

/-- C10: when the login response carries a token header but no body Id, the
call fails with the auth error yet the token extracted from the header stays
stored, and a subsequent call returns that token immediately with no further
request; in the converse case the partially-extracted session id stays
stored while the token remains unset. -/
theorem getSessionToken_partial_extraction (u p : String) (st : SessionState)
    (hst : st.sessionToken = none) (huri : st.sessionUri ≠ "")
    (hu : u ≠ "") (hp : p ≠ "") :
    (∀ (env : LoginEnv) (tok : String), tok ≠ "" →
      env.loginResult = .ok (some tok, none) →
      (getSessionToken env u p st).1 = .error .authError
      ∧ (getSessionToken env u p st).2.1.sessionToken = some tok
      ∧ ∀ (env2 : LoginEnv) (u2 p2 : String),
          getSessionToken env2 u2 p2 (getSessionToken env u p st).2.1 =
            (.ok tok, (getSessionToken env u p st).2.1, []))
    ∧ (∀ (env : LoginEnv) (sid : String), sid ≠ "" →
      env.loginResult = .ok (none, some sid) →
      (getSessionToken env u p st).1 = .error .authError
      ∧ (getSessionToken env u p st).2.1.sessionId = some sid
      ∧ (getSessionToken env u p st).2.1.sessionToken = none) := by
  constructor
  · intro env tok htok hlogin
    have hrun : getSessionToken env u p st =
        (.error .authError, { st with sessionToken := some tok, sessionId := none },
         [.login u p]) := by
      simp [getSessionToken, hst, huri, hu, hp, hlogin, strToOpt, htok]
    rw [hrun]
    refine ⟨rfl, rfl, fun env2 u2 p2 => ?_⟩
    simp [getSessionToken]
  · intro env sid hsid hlogin
    have hrun : getSessionToken env u p st =
        (.error .authError, { st with sessionToken := none, sessionId := some sid },
         [.login u p]) := by
      simp [getSessionToken, hst, huri, hu, hp, hlogin, strToOpt, hsid]
    rw [hrun]
    exact ⟨rfl, rfl, rfl⟩

/-- C10 witness: the partial-extraction theorem applied to a concrete state
and login outcomes. -/
theorem getSessionToken_partial_extraction_witness :
    ((getSessionToken ⟨.ok none, .ok (some "T", none)⟩ "u" "p"
        ⟨"/redfish/v1/SessionService/Sessions", none, none⟩).1 = .error .authError
      ∧ (getSessionToken ⟨.ok none, .ok (some "T", none)⟩ "u" "p"
          ⟨"/redfish/v1/SessionService/Sessions", none, none⟩).2.1.sessionToken = some "T"
      ∧ ∀ (env2 : LoginEnv) (u2 p2 : String),
          getSessionToken env2 u2 p2
              (getSessionToken ⟨.ok none, .ok (some "T", none)⟩ "u" "p"
                ⟨"/redfish/v1/SessionService/Sessions", none, none⟩).2.1 =
            (.ok "T", (getSessionToken ⟨.ok none, .ok (some "T", none)⟩ "u" "p"
                ⟨"/redfish/v1/SessionService/Sessions", none, none⟩).2.1, []))
    ∧ ((getSessionToken ⟨.ok none, .ok (none, some "5")⟩ "u" "p"
        ⟨"/redfish/v1/SessionService/Sessions", none, none⟩).1 = .error .authError
      ∧ (getSessionToken ⟨.ok none, .ok (none, some "5")⟩ "u" "p"
          ⟨"/redfish/v1/SessionService/Sessions", none, none⟩).2.1.sessionId = some "5"
      ∧ (getSessionToken ⟨.ok none, .ok (none, some "5")⟩ "u" "p"
          ⟨"/redfish/v1/SessionService/Sessions", none, none⟩).2.1.sessionToken = none) :=
  ⟨(getSessionToken_partial_extraction "u" "p"
      ⟨"/redfish/v1/SessionService/Sessions", none, none⟩ rfl (by decide) (by decide)
      (by decide)).1 ⟨.ok none, .ok (some "T", none)⟩ "T" (by decide) rfl,
   (getSessionToken_partial_extraction "u" "p"
      ⟨"/redfish/v1/SessionService/Sessions", none, none⟩ rfl (by decide) (by decide)
      (by decide)).2 ⟨.ok none, .ok (none, some "5")⟩ "5" (by decide) rfl⟩

theorem waitForTaskCompletionLoop_eq (env : Nat → Except RfError Task) (n : Nat) :
    waitForTaskCompletionLoop env n =
      match env n with
      | .error e => .error e
      | .ok t =>
        if 600000 ≤ 3000 * n then .error .timeoutError
        else if t.taskState = "Completed" then .ok (t.taskStatus == "OK")
        else waitForTaskCompletionLoop env (n + 1) := by
  conv_lhs => unfold waitForTaskCompletionLoop
  cases env n with
  | error e => rfl
  | ok t =>
    by_cases ht : 600000 ≤ 3000 * n <;> simp [ht]

theorem waitLoop_ok_means_completed (env : Nat → Except RfError Task) :
    ∀ (m n : Nat) (b : Bool), 200 - n ≤ m →
      waitForTaskCompletionLoop env n = .ok b →
      ∃ (k : Nat) (t : Task), env k = .ok t ∧ t.taskState = "Completed" ∧
        3000 * k < 600000 ∧ b = (t.taskStatus == "OK") := by
  intro m
  induction m with
  | zero =>
    intro n b hm h
    have ht : 600000 ≤ 3000 * n := by omega
    rw [waitForTaskCompletionLoop_eq] at h
    cases he : env n <;> rw [he] at h <;> simp [ht] at h
  | succ m ih =>
    intro n b hm h
    rw [waitForTaskCompletionLoop_eq] at h
    cases he : env n with
    | error e => rw [he] at h; simp at h
    | ok t =>
      rw [he] at h
      by_cases ht : 600000 ≤ 3000 * n
      · simp [ht] at h
      · by_cases hc : t.taskState = "Completed"
        · simp [ht, hc] at h
          exact ⟨n, t, he, hc, by omega, h.symm⟩
        · simp [ht, hc] at h
          exact ih (n + 1) b (by omega) h

theorem waitLoop_never_completed_timeout (env : Nat → Except RfError Task)
    (hp : ∀ k, ∃ t, env k = .ok t ∧ t.taskState ≠ "Completed") :
    ∀ (m n : Nat), 200 - n ≤ m →
      waitForTaskCompletionLoop env n = .error .timeoutError := by
  intro m
  induction m with
  | zero =>
    intro n hm
    have ht : 600000 ≤ 3000 * n := by omega
    obtain ⟨t, he, _⟩ := hp n
    rw [waitForTaskCompletionLoop_eq, he]
    simp [ht]
  | succ m ih =>
    intro n hm
    obtain ⟨t, he, hc⟩ := hp n
    rw [waitForTaskCompletionLoop_eq, he]
    by_cases ht : 600000 ≤ 3000 * n
    · simp [ht]
    · simp only [if_neg ht, if_neg hc]
      exact ih (n + 1) (by omega)

/-- C2: whenever the poll loop returns a Boolean, some poll within the
600000 ms window observed the terminal state Completed and the Boolean is
exactly whether that task's status was OK; and when every poll yields a
non-terminal task, the loop fails with the timeout error and no other
error. -/
theorem waitForTaskCompletion_spec (env : Nat → Except RfError Task) :
    (∀ b : Bool, waitForTaskCompletion env = .ok b →
      ∃ (k : Nat) (t : Task), env k = .ok t ∧ t.taskState = "Completed" ∧
        3000 * k < 600000 ∧ b = (t.taskStatus == "OK"))
    ∧ ((∀ k, ∃ t, env k = .ok t ∧ t.taskState ≠ "Completed") →
        waitForTaskCompletion env = .error .timeoutError) :=
  ⟨fun b h => waitLoop_ok_means_completed env 200 0 b (by omega) h,
   fun hp => waitLoop_never_completed_timeout env hp 200 0 (by omega)⟩

/-- C2 witness: the polling theorem applied to an immediately-completed task
and to a never-terminal task. -/
theorem waitForTaskCompletion_spec_witness :
    (∃ (k : Nat) (t : Task), taskEnvCompleted k = .ok t ∧ t.taskState = "Completed" ∧
        3000 * k < 600000 ∧ true = (t.taskStatus == "OK"))
    ∧ waitForTaskCompletion taskEnvRunning = .error .timeoutError :=
  ⟨(waitForTaskCompletion_spec taskEnvCompleted).1 true (by
      rw [waitForTaskCompletion, waitForTaskCompletionLoop_eq]
      simp [taskEnvCompleted]),
   (waitForTaskCompletion_spec taskEnvRunning).2
     (fun _ => ⟨⟨"Running", "OK"⟩, rfl, by decide⟩)⟩

/-- C6: the code lacks the single-flight guard the specification requires.
In the interleaving where both concurrent first callers pass the
cached-token check before either stores a token, both callers complete and
the login POST is issued twice, not once. -/
theorem getSessionToken_concurrent_double_login :
    (runSchedule racySchedule freshRaceState).loginCount = 2
    ∧ (runSchedule racySchedule freshRaceState).phase1 = .finished
    ∧ (runSchedule racySchedule freshRaceState).phase2 = .finished := by
  decide

/-- C3: for a cached system record advertising a boot-target allow-list
(with boot override supported), requesting a target outside the allow-list
fails with the validation error carrying the allow-list, performs no request
at all and leaves the cache unchanged; requesting a target inside the
allow-list issues exactly one PATCH whose body sets the boot-source override
target to that target. -/
theorem setNextBootDevice_allowlist (fenv : FetchSystemEnv) (penv : PatchEnv)
    (st : SystemCache) (sysId : String) (sys : SystemInfo) (boot : BootConfig)
    (allowed : List String) (target : String) (once : Bool)
    (hc : cacheLookup st sysId = some sys)
    (hboot : sys.boot = some boot)
    (hen : strTruthy boot.bootSourceOverrideEnabled = true)
    (hal : boot.allowableValues = some allowed) :
    (target ∉ allowed →
      setNextBootDevice fenv penv st sysId target once =
        (.error (.validationError allowed target), st, []))
    ∧ (target ∈ allowed → penv.patchResult = .ok () →
        setNextBootDevice fenv penv st sysId target once =
          (.ok true, st,
           [.patchBoot sys.odataId (if once then "Once" else "Continuous") target "UEFI"
              (if sys.etag = "" then none else some sys.etag)])) := by
  constructor
  · intro hnm
    simp [setNextBootDevice, resolveSystemInfo, hc, hboot, hen, hal, hnm]
  · intro hm hp
    simp [setNextBootDevice, resolveSystemInfo, hc, hboot, hen, hal, hm,
      issueBootPatch, hp, bootPatchRequest]

/-- C3 witness: the allow-list theorem applied to a concrete system, to the
disallowed target Hdd and to the allowed target Cd. -/
theorem setNextBootDevice_allowlist_witness :
    setNextBootDevice ⟨fun _ => .error .jsonParseError⟩ ⟨.ok ()⟩ c3Cache "1" "Hdd" true =
      (.error (.validationError ["Cd", "Pxe"] "Hdd"), c3Cache, [])
    ∧ setNextBootDevice ⟨fun _ => .error .jsonParseError⟩ ⟨.ok ()⟩ c3Cache "1" "Cd" true =
      (.ok true, c3Cache,
       [.patchBoot c3Sys.odataId (if true then "Once" else "Continuous") "Cd" "UEFI"
          (if c3Sys.etag = "" then none else some c3Sys.etag)]) :=
  ⟨(setNextBootDevice_allowlist ⟨fun _ => .error .jsonParseError⟩ ⟨.ok ()⟩ c3Cache "1"
      c3Sys ⟨some "Once", some ["Cd", "Pxe"]⟩ ["Cd", "Pxe"] "Hdd" true
      rfl rfl rfl rfl).1 (by decide),
   (setNextBootDevice_allowlist ⟨fun _ => .error .jsonParseError⟩ ⟨.ok ()⟩ c3Cache "1"
      c3Sys ⟨some "Once", some ["Cd", "Pxe"]⟩ ["Cd", "Pxe"] "Cd" true
      rfl rfl rfl rfl).2 (by decide) rfl⟩

theorem getSystemInfo_error_source (env : FetchSystemEnv) (st : SystemCache)
    (sysId : String) (refresh : Bool) (e : RfError) (st1 : SystemCache)
    (tr : List RfRequest)
    (h : getSystemInfo env st sysId refresh = (.error e, st1, tr)) :
    (∃ id, env.fetchSystem id = .error e) ∨ e = .noSystemId := by
  unfold getSystemInfo at h
  split at h
  · simp at h
    exact Or.inr h.1.symm
  · split at h
    · simp at h
    · split at h
      next e0 heq =>
        simp at h
        exact Or.inl ⟨sysId, by rw [heq, h.1]⟩
      next data etagHdr heq =>
        simp at h

theorem resolveSystemInfo_error_source (env : FetchSystemEnv) (st : SystemCache)
    (sysId : String) (e : RfError) (st1 : SystemCache) (tr : List RfRequest)
    (h : resolveSystemInfo env st sysId = (.error e, st1, tr)) :
    (∃ id, env.fetchSystem id = .error e) ∨ e = .noSystemId := by
  unfold resolveSystemInfo at h
  split at h
  · simp at h
  · exact getSystemInfo_error_source env st sysId false e st1 tr h

theorem setSystemPowerState_ok (fenv : FetchSystemEnv) (penv : PowerEnv)
    (st : SystemCache) (sysId action : String) (b : Bool) (st1 : SystemCache)
    (tr : List RfRequest)
    (h : setSystemPowerState fenv penv st sysId action = (.ok b, st1, tr)) :
    b = true := by
  unfold setSystemPowerState at h
  split at h
  · simp at h
  · split at h
    · simp at h
    · split at h
      · simp at h
        exact h.1
      · simp at h

theorem setSystemPowerState_error_source (fenv : FetchSystemEnv) (penv : PowerEnv)
    (st : SystemCache) (sysId action : String) (e : RfError) (st1 : SystemCache)
    (tr : List RfRequest)
    (h : setSystemPowerState fenv penv st sysId action = (.error e, st1, tr)) :
    (∃ id, fenv.fetchSystem id = .error e) ∨ penv.resetResult = .error e
    ∨ e = .noSystemId ∨ e = .noPowerAction := by
  unfold setSystemPowerState at h
  split at h
  next e0 st0 tr0 heq =>
    simp at h
    rcases resolveSystemInfo_error_source fenv st sysId e0 st0 tr0 heq with hi | hm
    · exact Or.inl (h.1 ▸ hi)
    · exact Or.inr (Or.inr (Or.inl (by rw [← h.1, hm])))
  next sys st0 tr0 heq =>
    split at h
    · simp at h
      exact Or.inr (Or.inr (Or.inr h.1.symm))
    · split at h
      next heq2 =>
        simp at h
      next e0 heq2 =>
        simp at h
        exact Or.inr (Or.inl (by rw [heq2, h.1]))

theorem fetchAllVm_error_source (g : String → Except RfError VirtualMedia) :
    ∀ (us : List String) (e : RfError), fetchAllVm g us = .error e →
      ∃ u, g u = .error e := by
  intro us
  induction us with
  | nil =>
    intro e h
    simp [fetchAllVm] at h
  | cons u rest ih =>
    intro e h
    unfold fetchAllVm at h
    split at h
    next heq =>
      injection h with h1
      exact ⟨u, h1 ▸ heq⟩
    next v heq =>
      split at h
      next heq2 =>
        injection h with h1
        exact ih e (h1 ▸ heq2)
      next vs heq2 =>
        simp at h

theorem envInjected_fetch {env : BootMediaEnv} {e : RfError} {id : String}
    (h : env.fenv.fetchSystem id = .error e) : envInjected env e :=
  Or.inl ⟨id, h⟩

theorem envInjected_manager {env : BootMediaEnv} {e : RfError}
    (h : env.managerVmUri = .error e) : envInjected env e :=
  Or.inr (Or.inl h)

theorem envInjected_members {env : BootMediaEnv} {e : RfError}
    (h : env.vmMembers = .error e) : envInjected env e :=
  Or.inr (Or.inr (Or.inl h))

theorem envInjected_getVm {env : BootMediaEnv} {e : RfError} {u : String}
    (h : env.getVm u = .error e) : envInjected env e :=
  Or.inr (Or.inr (Or.inr (Or.inl ⟨u, h⟩)))

theorem envInjected_unmount {env : BootMediaEnv} {e : RfError}
    (h : env.unmountResult = .error e) : envInjected env e :=
  Or.inr (Or.inr (Or.inr (Or.inr (Or.inl h))))

theorem envInjected_mount {env : BootMediaEnv} {e : RfError}
    (h : env.mountResult = .error e) : envInjected env e :=
  Or.inr (Or.inr (Or.inr (Or.inr (Or.inr (Or.inl h)))))

theorem envInjected_setVmBoot {env : BootMediaEnv} {e : RfError}
    (h : env.setVmBootResult = .error e) : envInjected env e :=
  Or.inr (Or.inr (Or.inr (Or.inr (Or.inr (Or.inr (Or.inl h))))))

theorem envInjected_reset {env : BootMediaEnv} {e : RfError}
    (h : env.penv.resetResult = .error e) : envInjected env e :=
  Or.inr (Or.inr (Or.inr (Or.inr (Or.inr (Or.inr (Or.inr h))))))

theorem bootVirtualMediaAfterMount_error_source (env : BootMediaEnv) (st : SystemCache)
    (sysId vt : String) (m : VirtualMedia) (tr : List RfRequest) (e : RfError)
    (est : SystemCache) (etr : List RfRequest)
    (h : bootVirtualMediaAfterMount env st sysId vt m tr = (.error e, est, etr)) :
    envInjected env e ∨ e ∈ workflowMarkers := by
  unfold bootVirtualMediaAfterMount at h
  split at h
  next e0 heq =>
    simp at h
    obtain ⟨rfl, rfl, rfl⟩ := h
    exact Or.inl (envInjected_setVmBoot heq)
  next heq =>
    simp at h
    obtain ⟨rfl, rfl, rfl⟩ := h
    exact Or.inr (by decide)
  next heq =>
    split at h
    next e0 stx rtr heq2 =>
      simp at h
      obtain ⟨rfl, rfl, rfl⟩ := h
      rcases getSystemInfo_error_source env.fenv st sysId true e0 stx rtr heq2 with hi | hm
      · exact Or.inl (Or.inl hi)
      · exact Or.inr (by rw [hm]; decide)
    next latest stx rtr heq2 =>
      split at h
      · split at h
        next e0 st3 ptr heq3 =>
          simp at h
          obtain ⟨rfl, rfl, rfl⟩ := h
          rcases setSystemPowerState_error_source env.fenv env.penv stx sysId "ForceRestart"
              e0 st3 ptr heq3 with hi | hr | hm | hm
          · exact Or.inl (Or.inl hi)
          · exact Or.inl (envInjected_reset hr)
          · exact Or.inr (by rw [hm]; decide)
          · exact Or.inr (by rw [hm]; decide)
        next st3 ptr heq3 =>
          exact absurd (setSystemPowerState_ok env.fenv env.penv stx sysId "ForceRestart"
            false st3 ptr heq3) (by decide)
        next st3 ptr heq3 =>
          simp at h
      · split at h
        · split at h
          next e0 st3 ptr heq3 =>
            simp at h
            obtain ⟨rfl, rfl, rfl⟩ := h
            rcases setSystemPowerState_error_source env.fenv env.penv stx sysId "On"
                e0 st3 ptr heq3 with hi | hr | hm | hm
            · exact Or.inl (Or.inl hi)
            · exact Or.inl (envInjected_reset hr)
            · exact Or.inr (by rw [hm]; decide)
            · exact Or.inr (by rw [hm]; decide)
          next st3 ptr heq3 =>
            exact absurd (setSystemPowerState_ok env.fenv env.penv stx sysId "On"
              false st3 ptr heq3) (by decide)
          next st3 ptr heq3 =>
            simp at h
        · simp at h

theorem bootVirtualMediaMountStep_error_source (env : BootMediaEnv) (st : SystemCache)
    (sysId imageUri vt : String) (m : VirtualMedia) (tr : List RfRequest) (e : RfError)
    (est : SystemCache) (etr : List RfRequest)
    (h : bootVirtualMediaMountStep env st sysId imageUri vt m tr = (.error e, est, etr)) :
    envInjected env e ∨ e ∈ workflowMarkers := by
  unfold bootVirtualMediaMountStep at h
  split at h
  next e0 heq =>
    simp at h
    obtain ⟨rfl, rfl, rfl⟩ := h
    exact Or.inl (envInjected_mount heq)
  next heq =>
    simp at h
    obtain ⟨rfl, rfl, rfl⟩ := h
    exact Or.inr (by decide)
  next heq =>
    exact bootVirtualMediaAfterMount_error_source env st sysId vt m _ e est etr h

theorem bootVirtualMediaMountPhase_error_source (env : BootMediaEnv) (st : SystemCache)
    (sysId imageUri vt : String) (m : VirtualMedia) (tr : List RfRequest) (e : RfError)
    (est : SystemCache) (etr : List RfRequest)
    (h : bootVirtualMediaMountPhase env st sysId imageUri vt m tr = (.error e, est, etr)) :
    envInjected env e ∨ e ∈ workflowMarkers := by
  unfold bootVirtualMediaMountPhase at h
  split at h
  · split at h
    next e0 heq =>
      simp at h
      obtain ⟨rfl, rfl, rfl⟩ := h
      exact Or.inl (envInjected_unmount heq)
    next heq =>
      simp at h
      obtain ⟨rfl, rfl, rfl⟩ := h
      exact Or.inr (by decide)
    next heq =>
      exact bootVirtualMediaMountStep_error_source env st sysId imageUri vt m _ e est etr h
  · exact bootVirtualMediaMountStep_error_source env st sysId imageUri vt m _ e est etr h

theorem bootVirtualMedia_error_source (env : BootMediaEnv) (st : SystemCache)
    (sysId imageUri : String) (e : RfError) (est : SystemCache) (etr : List RfRequest)
    (h : bootVirtualMedia env st sysId imageUri = (.error e, est, etr)) :
    envInjected env e ∨ e ∈ workflowMarkers := by
  unfold bootVirtualMedia at h
  split at h
  next e0 st1 tr heq =>
    simp at h
    obtain ⟨rfl, rfl, rfl⟩ := h
    rcases resolveSystemInfo_error_source env.fenv st sysId e0 st1 tr heq with hi | hm
    · exact Or.inl (Or.inl hi)
    · exact Or.inr (by rw [hm]; decide)
  next sys st1 tr heq =>
    split at h
    next e0 heq2 =>
      simp at h
      obtain ⟨rfl, rfl, rfl⟩ := h
      split at heq2
      · simp at heq2
      · split at heq2
        next e1 heq3 =>
          injection heq2 with h1
          exact Or.inl (envInjected_manager (h1 ▸ heq3))
        next heq3 =>
          injection heq2 with h1
          exact Or.inr (by rw [← h1]; decide)
        next u heq3 =>
          simp at heq2
    next vmUri heq2 =>
      split at h
      next e0 heq3 =>
        simp at h
        obtain ⟨rfl, rfl, rfl⟩ := h
        exact Or.inl (envInjected_members heq3)
      next members heq3 =>
        split at h
        · simp at h
          obtain ⟨rfl, rfl, rfl⟩ := h
          exact Or.inr (by decide)
        · split at h
          next heq4 =>
            simp at h
            obtain ⟨rfl, rfl, rfl⟩ := h
            exact Or.inr (by decide)
          next vt heq4 =>
            split at h
            next e0 heq5 =>
              simp at h
              obtain ⟨rfl, rfl, rfl⟩ := h
              obtain ⟨u, hu⟩ := fetchAllVm_error_source env.getVm members e0 heq5
              exact Or.inl (envInjected_getVm hu)
            next vmList heq5 =>
              split at h
              next heq6 =>
                simp at h
                obtain ⟨rfl, rfl, rfl⟩ := h
                exact Or.inr (by decide)
              next m heq6 =>
                exact bootVirtualMediaMountPhase_error_source env st1 sysId imageUri vt m
                  _ e est etr h

/-- C9: every power-state operation — setSystemPowerState and each of its
wrappers — returns true whenever it returns normally; failure is reported
only by throwing.  Consequently the false-result checks after force-restart
and power-on inside bootVirtualMedia can never fire: unless an environment
channel itself injects them, the workflow never surfaces the reboot-failed
or power-on-failed markers. -/
theorem setSystemPowerState_never_false :
    (∀ (fenv : FetchSystemEnv) (penv : PowerEnv) (st : SystemCache) (sysId action : String)
       (b : Bool) (st1 : SystemCache) (tr : List RfRequest),
      setSystemPowerState fenv penv st sysId action = (.ok b, st1, tr) → b = true)
    ∧ (∀ (fenv : FetchSystemEnv) (penv : PowerEnv) (st : SystemCache) (sysId : String)
         (b : Bool) (st1 : SystemCache) (tr : List RfRequest),
        powerOnSystem fenv penv st sysId = (.ok b, st1, tr) → b = true)
    ∧ (∀ (fenv : FetchSystemEnv) (penv : PowerEnv) (st : SystemCache) (sysId : String)
         (b : Bool) (st1 : SystemCache) (tr : List RfRequest),
        shutdownSystem fenv penv st sysId = (.ok b, st1, tr) → b = true)
    ∧ (∀ (fenv : FetchSystemEnv) (penv : PowerEnv) (st : SystemCache) (sysId : String)
         (b : Bool) (st1 : SystemCache) (tr : List RfRequest),
        forceOffSystem fenv penv st sysId = (.ok b, st1, tr) → b = true)
    ∧ (∀ (fenv : FetchSystemEnv) (penv : PowerEnv) (st : SystemCache) (sysId : String)
         (b : Bool) (st1 : SystemCache) (tr : List RfRequest),
        forceRestartSystem fenv penv st sysId = (.ok b, st1, tr) → b = true)
    ∧ (∀ (env : BootMediaEnv) (st : SystemCache) (sysId imageUri : String)
         (st1 : SystemCache) (tr : List RfRequest),
        (¬ envInjected env .rebootFailed →
          bootVirtualMedia env st sysId imageUri ≠ (.error .rebootFailed, st1, tr))
        ∧ (¬ envInjected env .powerOnFailed →
          bootVirtualMedia env st sysId imageUri ≠ (.error .powerOnFailed, st1, tr))) := by
  refine ⟨setSystemPowerState_ok,
    fun fenv penv st sysId => setSystemPowerState_ok fenv penv st sysId "On",
    fun fenv penv st sysId => setSystemPowerState_ok fenv penv st sysId "GracefulShutdown",
    fun fenv penv st sysId => setSystemPowerState_ok fenv penv st sysId "ForceOff",
    fun fenv penv st sysId => setSystemPowerState_ok fenv penv st sysId "ForceRestart",
    fun env st sysId imageUri st1 tr => ⟨fun hni heq => ?_, fun hni heq => ?_⟩⟩
  · rcases bootVirtualMedia_error_source env st sysId imageUri _ st1 tr heq with hi | hm
    · exact hni hi
    · exact absurd hm (by decide)
  · rcases bootVirtualMedia_error_source env st sysId imageUri _ st1 tr heq with hi | hm
    · exact hni hi
    · exact absurd hm (by decide)

theorem bootWitnessEnv_no_reboot_marker : ¬ envInjected bootWitnessEnv .rebootFailed := by
  simp only [envInjected]
  intro h
  rcases h with ⟨id, h⟩ | h | h | ⟨u, h⟩ | h | h | h | h <;>
    simp [bootWitnessEnv] at h

/-- C9 witness: the power theorem applied to a concrete accepted reset and
to the concrete boot workflow. -/
theorem setSystemPowerState_never_false_witness :
    setSystemPowerState bootWitnessEnv.fenv bootWitnessEnv.penv bootWitnessCache "1" "On" =
      (.ok true, bootWitnessCache,
       [.postReset "/redfish/v1/Systems/1/Actions/ComputerSystem.Reset" "On"])
    ∧ (true : Bool) = true
    ∧ bootVirtualMedia bootWitnessEnv bootWitnessCache "1" "disk.iso" ≠
        (.error .rebootFailed, bootWitnessCache, []) :=
  ⟨rfl,
   setSystemPowerState_never_false.1 bootWitnessEnv.fenv bootWitnessEnv.penv
     bootWitnessCache "1" "On" true bootWitnessCache
     [.postReset "/redfish/v1/Systems/1/Actions/ComputerSystem.Reset" "On"] rfl,
   (setSystemPowerState_never_false.2.2.2.2.2 bootWitnessEnv bootWitnessCache "1" "disk.iso"
     bootWitnessCache []).1 bootWitnessEnv_no_reboot_marker⟩

theorem bootVirtualMedia_select (env : BootMediaEnv) (st : SystemCache)
    (sysId imageUri vmUri vt : String) (sys : SystemInfo) (members : List String)
    (vmList : List VirtualMedia) (m : VirtualMedia)
    (hc : cacheLookup st sysId = some sys)
    (hvm : sys.virtualMediaUri = some vmUri)
    (hmem : env.vmMembers = .ok members)
    (hne : members.isEmpty = false)
    (htype : virtualMediaTypeOf imageUri = some vt)
    (hlist : fetchAllVm env.getVm members = .ok vmList)
    (hfind : vmList.find? (fun media =>
        media.mediaTypes.contains vt || media.mediaTypes.isEmpty) = some m) :
    bootVirtualMedia env st sysId imageUri =
      bootVirtualMediaMountPhase env st sysId imageUri vt m
        ([.getCollection vmUri] ++ members.map RfRequest.getVm) := by
  have hfind2 : vmList.find? (fun media =>
      decide (vt ∈ media.mediaTypes) || media.mediaTypes.isEmpty) = some m := by
    simpa using hfind
  unfold bootVirtualMedia
  simp [resolveSystemInfo, hc, hvm, hmem, hne, htype, hlist, hfind, hfind2]

theorem bootVirtualMediaAfterMount_trace (env : BootMediaEnv) (st : SystemCache)
    (sysId vt : String) (m : VirtualMedia) (tr : List RfRequest) :
    ∃ s, (bootVirtualMediaAfterMount env st sysId vt m tr).2.2 = tr ++ s := by
  rcases hs : env.setVmBootResult with e | b
  · exact ⟨[.setVmBoot vt], by simp [bootVirtualMediaAfterMount, hs]⟩
  · cases b
    · exact ⟨[.setVmBoot vt], by simp [bootVirtualMediaAfterMount, hs]⟩
    · rcases hg : getSystemInfo env.fenv st sysId true with ⟨r, stx, rtr⟩
      cases r with
      | error e =>
        exact ⟨[.setVmBoot vt] ++ rtr, by simp [bootVirtualMediaAfterMount, hs, hg]⟩
      | ok latest =>
        by_cases hOn : latest.powerState = some "On"
        · rcases hf : forceRestartSystem env.fenv env.penv stx sysId with ⟨r2, st3, ptr⟩
          cases r2 with
          | error e =>
            exact ⟨[.setVmBoot vt] ++ rtr ++ ptr,
              by simp [bootVirtualMediaAfterMount, hs, hg, hOn, hf]⟩
          | ok b2 =>
            cases b2 <;>
              exact ⟨[.setVmBoot vt] ++ rtr ++ ptr,
                by simp [bootVirtualMediaAfterMount, hs, hg, hOn, hf]⟩
        · by_cases hOff : latest.powerState = some "Off"
          · rcases hf : powerOnSystem env.fenv env.penv stx sysId with ⟨r2, st3, ptr⟩
            cases r2 with
            | error e =>
              exact ⟨[.setVmBoot vt] ++ rtr ++ ptr,
                by simp [bootVirtualMediaAfterMount, hs, hg, hOn, hOff, hf]⟩
            | ok b2 =>
              cases b2 <;>
                exact ⟨[.setVmBoot vt] ++ rtr ++ ptr,
                  by simp [bootVirtualMediaAfterMount, hs, hg, hOn, hOff, hf]⟩
          · exact ⟨[.setVmBoot vt] ++ rtr,
              by simp [bootVirtualMediaAfterMount, hs, hg, hOn, hOff]⟩

theorem bootVirtualMediaMountStep_trace (env : BootMediaEnv) (st : SystemCache)
    (sysId imageUri vt : String) (m : VirtualMedia) (tr : List RfRequest) :
    ∃ s, (bootVirtualMediaMountStep env st sysId imageUri vt m tr).2.2 =
      tr ++ RfRequest.mount imageUri m.odataId :: s := by
  rcases hm : env.mountResult with e | b
  · exact ⟨[], by simp [bootVirtualMediaMountStep, hm]⟩
  · cases b
    · exact ⟨[], by simp [bootVirtualMediaMountStep, hm]⟩
    · obtain ⟨s, hs⟩ := bootVirtualMediaAfterMount_trace env st sysId vt m
        (tr ++ [.mount imageUri m.odataId])
      exact ⟨s, by simp only [bootVirtualMediaMountStep, hm]; rw [hs]; simp⟩

/-- C1: whenever the selected virtual-media device reports media already
inserted, a failing vendor unmount — thrown error or false result — aborts
the workflow with the unmount's own error and the trace contains no mount
call at all; and when the unmount succeeds, the trace places the unmount
call directly before the mount call, in that order. -/
theorem bootVirtualMedia_unmount_before_mount (env : BootMediaEnv) (st : SystemCache)
    (sysId imageUri vmUri vt : String) (sys : SystemInfo) (members : List String)
    (vmList : List VirtualMedia) (m : VirtualMedia)
    (hc : cacheLookup st sysId = some sys)
    (hvm : sys.virtualMediaUri = some vmUri)
    (hmem : env.vmMembers = .ok members)
    (hne : members.isEmpty = false)
    (htype : virtualMediaTypeOf imageUri = some vt)
    (hlist : fetchAllVm env.getVm members = .ok vmList)
    (hfind : vmList.find? (fun media =>
        media.mediaTypes.contains vt || media.mediaTypes.isEmpty) = some m)
    (hin : m.inserted = true) :
    (∀ e, env.unmountResult = .error e →
      bootVirtualMedia env st sysId imageUri =
        (.error e, st,
         [.getCollection vmUri] ++ members.map RfRequest.getVm ++ [.unmount m.odataId]))
    ∧ (env.unmountResult = .ok false →
      bootVirtualMedia env st sysId imageUri =
        (.error .unmountFailed, st,
         [.getCollection vmUri] ++ members.map RfRequest.getVm ++ [.unmount m.odataId]))
    ∧ (∀ i mid, RfRequest.mount i mid ∉
        ([.getCollection vmUri] ++ members.map RfRequest.getVm
          ++ [.unmount m.odataId] : List RfRequest))
    ∧ (env.unmountResult = .ok true → ∃ s,
        (bootVirtualMedia env st sysId imageUri).2.2 =
          [.getCollection vmUri] ++ members.map RfRequest.getVm
            ++ RfRequest.unmount m.odataId :: RfRequest.mount imageUri m.odataId :: s) := by
  have hsel := bootVirtualMedia_select env st sysId imageUri vmUri vt sys members vmList m
    hc hvm hmem hne htype hlist hfind
  refine ⟨fun e hu => ?_, fun hu => ?_, fun i mid => ?_, fun hu => ?_⟩
  · rw [hsel]
    simp [bootVirtualMediaMountPhase, hin, hu]
  · rw [hsel]
    simp [bootVirtualMediaMountPhase, hin, hu]
  · simp [List.mem_append, List.mem_map]
  · have hred : bootVirtualMediaMountPhase env st sysId imageUri vt m
        ([.getCollection vmUri] ++ members.map RfRequest.getVm) =
      bootVirtualMediaMountStep env st sysId imageUri vt m
        (([.getCollection vmUri] ++ members.map RfRequest.getVm)
          ++ [.unmount m.odataId]) := by
      simp [bootVirtualMediaMountPhase, hin, hu]
    obtain ⟨s, hs⟩ := bootVirtualMediaMountStep_trace env st sysId imageUri vt m
      (([.getCollection vmUri] ++ members.map RfRequest.getVm) ++ [.unmount m.odataId])
    refine ⟨s, ?_⟩
    rw [hsel, hred, hs]
    simp

/-- C1 witness: the ordering theorem applied to a concrete workflow whose
selected device is occupied and whose vendor unmount fails. -/
theorem bootVirtualMedia_unmount_before_mount_witness :
    bootVirtualMedia bootWitnessEnvUnmountErr bootWitnessCache "1" "disk.iso" =
      (.error (.httpError 500), bootWitnessCache,
       [.getCollection "/redfish/v1/Managers/1/VirtualMedia"]
         ++ (["/vm/cd"].map RfRequest.getVm) ++ [.unmount "/vm/cd"]) :=
  (bootVirtualMedia_unmount_before_mount bootWitnessEnvUnmountErr bootWitnessCache "1"
    "disk.iso" "/redfish/v1/Managers/1/VirtualMedia" "CD" bootWitnessSys ["/vm/cd"]
    [bootWitnessMedia] bootWitnessMedia rfl rfl rfl rfl rfl rfl rfl rfl).1
    (.httpError 500) rfl

end Redfish
